import Mathlib

/-!
Verification development for the attribution-analysis service of the
clickstream-analytics repository.

The orchestrator `createAttributionAnalysisVisual` is embedded from
`src/control-plane/backend/lambda/api/service/attribution.ts`.  Its
collaborators (`checkAttributionAnalysisParameter`,
`getPipelineByProjectId`, `getTimezoneByAppId`, the three SQL builders
and `createDashboardVisuals`) live outside the provided sources; they
are modelled as an abstract environment `Env` of functions, so every
theorem about the orchestrator holds for every behaviour of the
collaborators.  The orchestrator returns, besides the HTTP-style
response, a trace of the externally visible effects it performed, in
order, which lets us state the "no further side effects" and
"exactly once / ordering" claims.

The credit-assignment semantics of the single-point and position-based
attribution models (whose SQL builders are not among the provided
sources) are modelled from the specification in a second section below.
-/

/-- Character code 39, the single-quote character used in SQL string
literals. -/
def sqlQuoteChar : Char := Char.ofNat 39

/-- Doubling of every single quote in a string, the minimal escaping the
specification requires of the SQL value encoder. -/
def escapeSqlValue (s : String) : String :=
  String.mk (s.data.foldr (fun c acc =>
    if c = sqlQuoteChar then sqlQuoteChar :: sqlQuoteChar :: acc else c :: acc) [])

/-- Value of the `AttributionModelType.FIRST_TOUCH` enum member. -/
def AttributionModelType.FIRST_TOUCH : String := "FIRST_TOUCH"

/-- Value of the `AttributionModelType.LAST_TOUCH` enum member. -/
def AttributionModelType.LAST_TOUCH : String := "LAST_TOUCH"

/-- Value of the `AttributionModelType.LINEAR` enum member. -/
def AttributionModelType.LINEAR : String := "LINEAR"

/-- Value of the `AttributionModelType.POSITION` enum member. -/
def AttributionModelType.POSITION : String := "POSITION"

/-- Value of the `ExploreRequestAction.PREVIEW` enum member. -/
def ExploreRequestAction.PREVIEW : String := "PREVIEW"

/-- Value of the `ExploreLocales.EN_US` enum member. -/
def ExploreLocales.EN_US : String := "en-US"

/-- Value of the `QuickSightChartType.TABLE` enum member. -/
def QuickSightChartType.TABLE : String := "table"

/-- Request / parameter record for attribution analysis.  The TypeScript
service reads the request body as a dynamic object and casts it to
`AttributionSQLParameters`; the fields here are the ones the service and
the specification mention.  Optional fields of the request are `Option`s,
fields that are only filled in by the service (`timezone`, `schemaName`,
`dbName`) are plain strings that start out empty. -/
structure AttributionSQLParameters where
  projectId : String
  appId : String
  modelType : String
  timeScopeType : String
  lastN : Option Nat
  timeUnit : Option String
  timeStart : Option String
  timeEnd : Option String
  dashboardId : Option String
  sheetId : Option String
  locale : Option String
  chartType : Option String
  viewName : String
  action : String
  touchPointEventName : String
  conversionEventName : String
  timezone : String
  schemaName : String
  dbName : String
  deriving Repr, DecidableEq

/-- Modelled from the spec: `encodeAttributionQueryValueForSql` of
`quicksight/reporting-utils.ts` is not among the provided sources; per
spec 4.2 it escapes every free-text field destined for interpolation
into the generated SQL (minimally: single quotes).  The free-text fields
of the request are the touch-point event name, the conversion event name
and the view name. -/
def encodeAttributionQueryValueForSql (q : AttributionSQLParameters) :
    AttributionSQLParameters :=
  { q with
    touchPointEventName := escapeSqlValue q.touchPointEventName
    conversionEventName := escapeSqlValue q.conversionEventName
    viewName := escapeSqlValue q.viewName }

/-- Result of `checkAttributionAnalysisParameter`: a success flag and a
message. -/
structure CheckResult where
  success : Bool
  message : String
  deriving Repr, DecidableEq

/-- Pipeline entity, read-only to this core; looked up by project id.
Only its identity matters to the orchestrator, which passes it to the
timezone lookup and to the visualization call. -/
structure IPipeline where
  pipelineId : String
  deriving Repr, DecidableEq

/-- Result of the visualization call, holding the dashboard embed URL
(possibly empty, signalling "not ready") and the dashboard id. -/
structure CreateDashboardResult where
  dashboardId : String
  dashboardEmbedUrl : String
  deriving Repr, DecidableEq

/-- JavaScript truthiness test for an optional string field: `undefined`,
`null` and the empty string are falsy. -/
def jsFalsy : Option String → Bool
  | none => true
  | some s => s == ""

/-- Which of the three SQL builders is invoked. -/
inductive BuilderKind where
  | singlePoint
  | linear
  | position
  deriving Repr, DecidableEq

/-- Externally visible effects of one request, in the order the service
performs them. -/
inductive Effect where
  | validate
  | lookupPipeline (projectId : String)
  | resolveTimezone (timezone : String)
  | encode
  | build (kind : BuilderKind) (params : AttributionSQLParameters)
  | visualize (sheetId : String) (locale : String) (chartType : String)
  deriving Repr, DecidableEq

/-- HTTP-style responses of the service. -/
inductive Response where
  | status400 (message : String)
  | status404 (message : String)
  | status500 (message : String)
  | status201 (result : CreateDashboardResult)
  deriving Repr, DecidableEq

/-- Abstract environment of collaborators: the parameter validator, the
pipeline resolver, the timezone lookup, the UUID generator, the three
SQL builders and the visualization provider.  All theorems about the
orchestrator quantify over this environment. -/
structure Env where
  check : AttributionSQLParameters → CheckResult
  getPipelineByProjectId : String → Option IPipeline
  getTimezoneByAppId : IPipeline → String → String
  uuid : String
  buildSQLForSinglePointModel : AttributionSQLParameters → String
  buildSQLForLinearModel : AttributionSQLParameters → String
  buildSQLForPositionModel : AttributionSQLParameters → String
  createDashboardVisuals :
    String → String → AttributionSQLParameters → IPipeline → CreateDashboardResult

/-- Derivation of the sheet id, lines 49-57 of `attribution.ts`: a falsy
`dashboardId` mints a fresh uuid; otherwise a falsy `sheetId` is an
error (`none`), and a truthy one is reused unchanged. -/
def sheetIdOf (env : Env) (q : AttributionSQLParameters) : Option String :=
  if jsFalsy q.dashboardId then some env.uuid
  else if jsFalsy q.sheetId then none
  else q.sheetId

/-- Dispatch on the model type, lines 60-68 of `attribution.ts`:
`LAST_TOUCH` or `FIRST_TOUCH` select the single-point builder, `LINEAR`
the linear builder, `POSITION` the position builder, anything else is
rejected. -/
def builderOf (modelType : String) : Option BuilderKind :=
  if modelType == AttributionModelType.LAST_TOUCH
      || modelType == AttributionModelType.FIRST_TOUCH then
    some BuilderKind.singlePoint
  else if modelType == AttributionModelType.LINEAR then
    some BuilderKind.linear
  else if modelType == AttributionModelType.POSITION then
    some BuilderKind.position
  else
    none

/-- Application of the selected SQL builder from the environment. -/
def buildWith (env : Env) : BuilderKind → AttributionSQLParameters → String
  | BuilderKind.singlePoint => env.buildSQLForSinglePointModel
  | BuilderKind.linear => env.buildSQLForLinearModel
  | BuilderKind.position => env.buildSQLForPositionModel

/-- Parameters handed to a builder, lines 81-85 (and 93-97, 104-108) of
`attribution.ts`: the encoded query spread unchanged, with `schemaName`
overridden to the app id and `dbName` to the project id. -/
def builderParamsOf (q : AttributionSQLParameters) : AttributionSQLParameters :=
  { q with schemaName := q.appId, dbName := q.projectId }

/-- Query enriched with the timezone resolved from the pipeline and the
app id (line 45 of `attribution.ts`) and then value-encoded (line 47). -/
def enrichedQuery (env : Env) (req : AttributionSQLParameters) (p : IPipeline) :
    AttributionSQLParameters :=
  encodeAttributionQueryValueForSql
    { req with timezone := env.getTimezoneByAppId p req.appId }

/-- Orchestrator `createAttributionAnalysisVisual` of `attribution.ts`,
returning the HTTP-style response together with the trace of effects.
The TypeScript `result === undefined` guard on line 70 is vacuous at
this point (every non-returning dispatch branch assigns `result`), so
the final test is the empty-embed-URL-and-PREVIEW conjunction. -/
def createAttributionAnalysisVisual (env : Env) (req : AttributionSQLParameters) :
    Response × List Effect :=
  let checkResult := env.check req
  if checkResult.success = false then
    (Response.status400 checkResult.message, [Effect.validate])
  else
    match env.getPipelineByProjectId req.projectId with
    | none =>
        (Response.status404 "Pipeline not found",
          [Effect.validate, Effect.lookupPipeline req.projectId])
    | some pipeline =>
        let timezone := env.getTimezoneByAppId pipeline req.appId
        let query := enrichedQuery env req pipeline
        let baseTrace := [Effect.validate, Effect.lookupPipeline req.projectId,
          Effect.resolveTimezone timezone, Effect.encode]
        match sheetIdOf env query with
        | none => (Response.status400 "missing required parameter sheetId", baseTrace)
        | some sheetId =>
            match builderOf query.modelType with
            | none =>
                (Response.status400 "Invalid attribution analysis model type", baseTrace)
            | some kind =>
                let params := builderParamsOf query
                let sql := buildWith env kind params
                let locale := query.locale.getD ExploreLocales.EN_US
                let chartType := query.chartType.getD QuickSightChartType.TABLE
                let result := env.createDashboardVisuals sql sheetId query pipeline
                let trace := baseTrace ++
                  [Effect.build kind params, Effect.visualize sheetId locale chartType]
                if result.dashboardEmbedUrl == ""
                    && query.action == ExploreRequestAction.PREVIEW then
                  (Response.status500 "Failed to create resources, please try again later.",
                    trace)
                else
                  (Response.status201 result, trace)

/-- Result of the visualization call on the full path through the
service, for stating the success/failure mapping. -/
def visualResultOf (env : Env) (req : AttributionSQLParameters) (p : IPipeline)
    (s : String) (k : BuilderKind) : CreateDashboardResult :=
  env.createDashboardVisuals
    (buildWith env k (builderParamsOf (enrichedQuery env req p))) s
    (enrichedQuery env req p) p

/-- Discriminator for the encoding effect, used to count encoder
applications in a trace. -/
def isEncodeEffect : Effect → Bool
  | Effect.encode => true
  | _ => false

/-- Modelled from the spec: a touch event of one user, as the SQL
builders of `sql-builder-attribution.ts` (not among the provided
sources) see it: an event name, the event timestamp, and a secondary
tie-break key (event/ingestion sequence), per spec 4.3. -/
structure TouchEvent where
  name : String
  ts : Int
  seq : Int
  deriving Repr, DecidableEq

/-- Modelled from the spec: one user-conversion pair: the conversion
event timestamp together with the touch events of that user. -/
structure ConversionCase where
  convTs : Int
  touches : List TouchEvent
  deriving Repr, DecidableEq

/-- Touch events qualify when they fall inside the requested time window
and occur strictly before the conversion event (spec 4.3). -/
def inWindowBeforeConv (wStart wEnd convTs : Int) (t : TouchEvent) : Bool :=
  decide (wStart ≤ t.ts) && decide (t.ts ≤ wEnd) && decide (t.ts < convTs)

/-- Qualifying touches of one user-conversion pair. -/
def qualifyingTouches (wStart wEnd : Int) (c : ConversionCase) : List TouchEvent :=
  c.touches.filter (inWindowBeforeConv wStart wEnd c.convTs)

/-- Deterministic order on touch events: by timestamp, ties broken by
the secondary key (spec 4.3 tie-break rule). -/
def touchLE (a b : TouchEvent) : Bool :=
  decide (a.ts < b.ts) || (decide (a.ts = b.ts) && decide (a.seq ≤ b.seq))

/-- Earliest touch event of a list under `touchLE`. -/
def firstTouch : List TouchEvent → Option TouchEvent
  | [] => none
  | t :: rest =>
      match firstTouch rest with
      | none => some t
      | some m => some (if touchLE t m then t else m)

/-- Latest touch event of a list under `touchLE`. -/
def lastTouch : List TouchEvent → Option TouchEvent
  | [] => none
  | t :: rest =>
      match lastTouch rest with
      | none => some t
      | some m => some (if touchLE m t then t else m)

/-- Modelled from the spec: the touch event the single-point model
selects for one user-conversion pair (spec 4.3): the earliest
qualifying touch for first-touch, the latest for last-touch. -/
def selectedTouch (isFirstModel : Bool) (wStart wEnd : Int) (c : ConversionCase) :
    Option TouchEvent :=
  if isFirstModel then firstTouch (qualifyingTouches wStart wEnd c)
  else lastTouch (qualifyingTouches wStart wEnd c)

/-- Modelled from the spec: credit assignment of the single-point model
for one user-conversion pair: the selected touch receives the full
conversion credit of 1, no other touch receives any. -/
def singlePointAssign (isFirstModel : Bool) (wStart wEnd : Int) (c : ConversionCase) :
    List (String × ℚ) :=
  match selectedTouch isFirstModel wStart wEnd c with
  | none => []
  | some m => [(m.name, 1)]

/-- Credit entries of the single-point model over all user-conversion
pairs. -/
def singlePointAssignments (isFirstModel : Bool) (wStart wEnd : Int)
    (cs : List ConversionCase) : List (String × ℚ) :=
  cs.flatMap (singlePointAssign isFirstModel wStart wEnd)

/-- Summed contribution credited to one touch-point name. -/
def contributionOf (l : List (String × ℚ)) (n : String) : ℚ :=
  ((l.filter (fun pr => pr.1 == n)).map Prod.snd).sum

/-- Distinct touch-point names appearing in a credit-entry list. -/
def touchPointNames (l : List (String × ℚ)) : List String :=
  (l.map Prod.fst).dedup

/-- Sum of the per-touch-point contributions of a credit-entry list. -/
def totalContribution (l : List (String × ℚ)) : ℚ :=
  ((touchPointNames l).map (contributionOf l)).sum

/-- Number of user-conversion pairs with at least one qualifying
touch. -/
def convertedCount (wStart wEnd : Int) (cs : List ConversionCase) : Nat :=
  (cs.filter (fun c => !(qualifyingTouches wStart wEnd c).isEmpty)).length

/-- Propositional form of `touchLE`, the ordering the SQL window ranking
uses. -/
def touchOrder : TouchEvent → TouchEvent → Prop :=
  fun a b => touchLE a b = true

instance : DecidableRel touchOrder :=
  fun a b => instDecidableEqBool (touchLE a b) true

instance : IsTotal TouchEvent touchOrder :=
  ⟨by
    intro a b
    simp only [touchOrder, touchLE, Bool.or_eq_true, Bool.and_eq_true, decide_eq_true_eq]
    omega⟩

instance : IsTrans TouchEvent touchOrder :=
  ⟨by
    intro a b c
    simp only [touchOrder, touchLE, Bool.or_eq_true, Bool.and_eq_true, decide_eq_true_eq]
    omega⟩

/-- Qualifying touches of one user-conversion pair in the deterministic
order of the window ranking. -/
def orderedTouches (wStart wEnd : Int) (c : ConversionCase) : List TouchEvent :=
  List.insertionSort touchOrder (qualifyingTouches wStart wEnd c)

/-- Modelled from the spec: credit assignment of the position-based
model for one user-conversion pair (spec 4.3): a single qualifying
touch receives the whole credit; two qualifying touches receive half
each; with three or more, the first and the last receive two fifths
each and the remaining fifth is split equally among the middle
touches. -/
def positionAssign (wStart wEnd : Int) (c : ConversionCase) : List (String × ℚ) :=
  match orderedTouches wStart wEnd c with
  | [] => []
  | [t] => [(t.name, 1)]
  | [t, u] => [(t.name, (1 : ℚ) / 2), (u.name, (1 : ℚ) / 2)]
  | t :: u :: v :: rest =>
      let mids := (u :: v :: rest).dropLast
      let finalT := (u :: v :: rest).getLastD t
      (t.name, (2 : ℚ) / 5) ::
        (mids.map (fun m => (m.name, ((1 : ℚ) / 5) / (mids.length : ℚ)))) ++
        [(finalT.name, (2 : ℚ) / 5)]

/-- Sample pipeline used to instantiate theorems at concrete inputs. -/
def samplePipeline : IPipeline := { pipelineId := "pipe-1" }

/-- Sample visualization result with a non-empty embed URL. -/
def sampleResultOk : CreateDashboardResult :=
  { dashboardId := "dash-1", dashboardEmbedUrl := "https://example.com/embed" }

/-- Sample environment: validation passes, project `p1` resolves to the
sample pipeline, visualization succeeds. -/
def sampleEnv : Env :=
  { check := fun _ => { success := true, message := "" }
    getPipelineByProjectId := fun pid =>
      if pid == "p1" then some samplePipeline else none
    getTimezoneByAppId := fun _ _ => "+00:00"
    uuid := "uuid-1"
    buildSQLForSinglePointModel := fun q => "single " ++ q.schemaName
    buildSQLForLinearModel := fun q => "linear " ++ q.schemaName
    buildSQLForPositionModel := fun q => "position " ++ q.schemaName
    createDashboardVisuals := fun _ _ _ _ => sampleResultOk }

/-- Sample environment whose validator rejects every request. -/
def sampleEnvBadCheck : Env :=
  { sampleEnv with check := fun _ => { success := false, message := "bad request" } }

/-- Sample environment whose visualization call returns an empty embed
URL. -/
def sampleEnvEmptyEmbed : Env :=
  { sampleEnv with createDashboardVisuals := fun _ _ _ _ =>
      { dashboardId := "dash-1", dashboardEmbedUrl := "" } }

/-- Sample request: a first-touch PREVIEW request for project `p1`. -/
def sampleReq : AttributionSQLParameters :=
  { projectId := "p1", appId := "a1", modelType := "FIRST_TOUCH"
    timeScopeType := "FIXED", lastN := none, timeUnit := none
    timeStart := some "2024-01-01", timeEnd := some "2024-01-31"
    dashboardId := none, sheetId := none, locale := none, chartType := none
    viewName := "view1", action := "PREVIEW"
    touchPointEventName := "view_item", conversionEventName := "purchase"
    timezone := "", schemaName := "", dbName := "" }

/-- Sample request with an unsupported model type. -/
def sampleReqBadModel : AttributionSQLParameters :=
  { sampleReq with modelType := "UNKNOWN" }

/-- Sample request for a project with no pipeline. -/
def sampleReqNoPipeline : AttributionSQLParameters :=
  { sampleReq with projectId := "p2" }

/-- Sample request targeting an existing dashboard without a sheet
id. -/
def sampleReqNoSheet : AttributionSQLParameters :=
  { sampleReq with dashboardId := some "dash-9", sheetId := none }

/-- Sample request targeting an existing dashboard with a sheet id. -/
def sampleReqWithSheet : AttributionSQLParameters :=
  { sampleReq with dashboardId := some "dash-9", sheetId := some "sheet-7" }

/-- Sample touch events for the attribution-model theorems. -/
def sampleTouchA : TouchEvent := { name := "ad_click", ts := 10, seq := 0 }

/-- Second sample touch event. -/
def sampleTouchB : TouchEvent := { name := "email_open", ts := 20, seq := 1 }

/-- Third sample touch event. -/
def sampleTouchC : TouchEvent := { name := "search", ts := 30, seq := 2 }

/-- Fourth sample touch event. -/
def sampleTouchD : TouchEvent := { name := "referral", ts := 40, seq := 3 }

/-- Sample user-conversion pair with three qualifying touches. -/
def sampleCaseA : ConversionCase :=
  { convTs := 50, touches := [sampleTouchB, sampleTouchA, sampleTouchC] }

/-- Sample user-conversion pair with no qualifying touch. -/
def sampleCaseB : ConversionCase :=
  { convTs := 5, touches := [sampleTouchB] }

/-- Sample user-conversion pair with four qualifying touches. -/
def sampleCaseC : ConversionCase :=
  { convTs := 60, touches := [sampleTouchD, sampleTouchB, sampleTouchA, sampleTouchC] }

/-- Sample list of user-conversion pairs. -/
def sampleCases : List ConversionCase := [sampleCaseA, sampleCaseB]

/-- Run characterization: failed validation. -/
lemma run_invalid (env : Env) (req : AttributionSQLParameters)
    (h : (env.check req).success = false) :
    createAttributionAnalysisVisual env req =
      (Response.status400 (env.check req).message, [Effect.validate]) := by
  unfold createAttributionAnalysisVisual
  simp [h]

/-- Run characterization: no pipeline for the project id. -/
lemma run_noPipeline (env : Env) (req : AttributionSQLParameters)
    (h1 : (env.check req).success = true)
    (h2 : env.getPipelineByProjectId req.projectId = none) :
    createAttributionAnalysisVisual env req =
      (Response.status404 "Pipeline not found",
        [Effect.validate, Effect.lookupPipeline req.projectId]) := by
  unfold createAttributionAnalysisVisual
  simp [h1, h2]

/-- Run characterization: dashboard id supplied without a sheet id. -/
lemma run_noSheet (env : Env) (req : AttributionSQLParameters) (p : IPipeline)
    (h1 : (env.check req).success = true)
    (h2 : env.getPipelineByProjectId req.projectId = some p)
    (h3 : sheetIdOf env (enrichedQuery env req p) = none) :
    createAttributionAnalysisVisual env req =
      (Response.status400 "missing required parameter sheetId",
        [Effect.validate, Effect.lookupPipeline req.projectId,
          Effect.resolveTimezone (env.getTimezoneByAppId p req.appId), Effect.encode]) := by
  unfold createAttributionAnalysisVisual
  simp [h1, h2, h3]

/-- Run characterization: unsupported model type. -/
lemma run_badModel (env : Env) (req : AttributionSQLParameters) (p : IPipeline)
    (s : String)
    (h1 : (env.check req).success = true)
    (h2 : env.getPipelineByProjectId req.projectId = some p)
    (h3 : sheetIdOf env (enrichedQuery env req p) = some s)
    (h4 : builderOf (enrichedQuery env req p).modelType = none) :
    createAttributionAnalysisVisual env req =
      (Response.status400 "Invalid attribution analysis model type",
        [Effect.validate, Effect.lookupPipeline req.projectId,
          Effect.resolveTimezone (env.getTimezoneByAppId p req.appId), Effect.encode]) := by
  unfold createAttributionAnalysisVisual
  simp [h1, h2, h3, h4]

/-- Run characterization: full path through a builder and the
visualization call. -/
lemma run_full (env : Env) (req : AttributionSQLParameters) (p : IPipeline)
    (s : String) (k : BuilderKind)
    (h1 : (env.check req).success = true)
    (h2 : env.getPipelineByProjectId req.projectId = some p)
    (h3 : sheetIdOf env (enrichedQuery env req p) = some s)
    (h4 : builderOf (enrichedQuery env req p).modelType = some k) :
    createAttributionAnalysisVisual env req =
      ((if (env.createDashboardVisuals
              (buildWith env k (builderParamsOf (enrichedQuery env req p))) s
              (enrichedQuery env req p) p).dashboardEmbedUrl == ""
            && (enrichedQuery env req p).action == ExploreRequestAction.PREVIEW then
          Response.status500 "Failed to create resources, please try again later."
        else
          Response.status201 (env.createDashboardVisuals
            (buildWith env k (builderParamsOf (enrichedQuery env req p))) s
            (enrichedQuery env req p) p)),
        [Effect.validate, Effect.lookupPipeline req.projectId,
          Effect.resolveTimezone (env.getTimezoneByAppId p req.appId), Effect.encode,
          Effect.build k (builderParamsOf (enrichedQuery env req p)),
          Effect.visualize s ((enrichedQuery env req p).locale.getD ExploreLocales.EN_US)
            ((enrichedQuery env req p).chartType.getD QuickSightChartType.TABLE)]) := by
  unfold createAttributionAnalysisVisual
  simp [h1, h2, h3, h4]
  split <;> rfl

/-- Reflexivity of the deterministic touch order. -/
lemma touchLE_refl (a : TouchEvent) : touchLE a a = true := by
  simp [touchLE]

/-- Totality of the deterministic touch order. -/
lemma touchLE_total (a b : TouchEvent) (h : touchLE a b = false) : touchLE b a = true := by
  simp only [touchLE, Bool.or_eq_false_iff, Bool.and_eq_false_iff,
    decide_eq_false_iff_not, Bool.or_eq_true, Bool.and_eq_true, decide_eq_true_eq] at h ⊢
  omega

/-- Transitivity of the deterministic touch order. -/
lemma touchLE_trans (a b c : TouchEvent) (hab : touchLE a b = true)
    (hbc : touchLE b c = true) : touchLE a c = true := by
  simp only [touchLE, Bool.or_eq_true, Bool.and_eq_true, decide_eq_true_eq] at hab hbc ⊢
  omega

/-- The earliest touch exists exactly for nonempty lists. -/
lemma firstTouch_none_iff (l : List TouchEvent) : firstTouch l = none ↔ l = [] := by
  cases l with
  | nil => simp [firstTouch]
  | cons t rest =>
      rw [firstTouch]
      cases firstTouch rest <;> simp

/-- The latest touch exists exactly for nonempty lists. -/
lemma lastTouch_none_iff (l : List TouchEvent) : lastTouch l = none ↔ l = [] := by
  cases l with
  | nil => simp [lastTouch]
  | cons t rest =>
      rw [lastTouch]
      cases lastTouch rest <;> simp

/-- The earliest touch is a member of the list and a lower bound under
the deterministic order. -/
lemma firstTouch_spec (l : List TouchEvent) (m : TouchEvent)
    (h : firstTouch l = some m) : m ∈ l ∧ ∀ u ∈ l, touchLE m u = true := by
  induction l generalizing m with
  | nil => simp [firstTouch] at h
  | cons t rest ih =>
      rw [firstTouch] at h
      cases hr : firstTouch rest with
      | none =>
          rw [hr] at h
          simp only [Option.some.injEq] at h
          rw [← h]
          have hrest : rest = [] := (firstTouch_none_iff rest).mp hr
          subst hrest
          exact ⟨by simp, by
            intro u hu
            simp only [List.mem_singleton] at hu
            rw [hu]
            exact touchLE_refl t⟩
      | some m' =>
          rw [hr] at h
          simp only [Option.some.injEq] at h
          obtain ⟨hm', hmin⟩ := ih m' hr
          by_cases hc : touchLE t m' = true
          · rw [if_pos hc] at h
            rw [← h]
            refine ⟨by simp, ?_⟩
            intro u hu
            rcases List.mem_cons.mp hu with hu | hu
            · rw [hu]; exact touchLE_refl t
            · exact touchLE_trans t m' u hc (hmin u hu)
          · rw [if_neg hc] at h
            rw [← h]
            refine ⟨by simp [hm'], ?_⟩
            intro u hu
            rcases List.mem_cons.mp hu with hu | hu
            · rw [hu]
              exact touchLE_total t m' (Bool.eq_false_iff.mpr hc)
            · exact hmin u hu

/-- The latest touch is a member of the list and an upper bound under
the deterministic order. -/
lemma lastTouch_spec (l : List TouchEvent) (m : TouchEvent)
    (h : lastTouch l = some m) : m ∈ l ∧ ∀ u ∈ l, touchLE u m = true := by
  induction l generalizing m with
  | nil => simp [lastTouch] at h
  | cons t rest ih =>
      rw [lastTouch] at h
      cases hr : lastTouch rest with
      | none =>
          rw [hr] at h
          simp only [Option.some.injEq] at h
          rw [← h]
          have hrest : rest = [] := (lastTouch_none_iff rest).mp hr
          subst hrest
          exact ⟨by simp, by
            intro u hu
            simp only [List.mem_singleton] at hu
            rw [hu]
            exact touchLE_refl t⟩
      | some m' =>
          rw [hr] at h
          simp only [Option.some.injEq] at h
          obtain ⟨hm', hmax⟩ := ih m' hr
          by_cases hc : touchLE m' t = true
          · rw [if_pos hc] at h
            rw [← h]
            refine ⟨by simp, ?_⟩
            intro u hu
            rcases List.mem_cons.mp hu with hu | hu
            · rw [hu]; exact touchLE_refl t
            · exact touchLE_trans u m' t (hmax u hu) hc
          · rw [if_neg hc] at h
            rw [← h]
            refine ⟨by simp [hm'], ?_⟩
            intro u hu
            rcases List.mem_cons.mp hu with hu | hu
            · rw [hu]
              exact touchLE_total m' t (Bool.eq_false_iff.mpr hc)
            · exact hmax u hu

/-- Contribution of a name in the empty credit list is zero. -/
lemma contributionOf_nil (n : String) : contributionOf [] n = 0 := rfl

/-- Contribution of a name in a cons credit list. -/
lemma contributionOf_cons (a : String) (q : ℚ) (l : List (String × ℚ)) (n : String) :
    contributionOf ((a, q) :: l) n = (if a == n then q else 0) + contributionOf l n := by
  by_cases h : (a == n) = true
  · simp [contributionOf, List.filter_cons, h]
  · simp [contributionOf, List.filter_cons, h]

/-- Summing a one-point indicator over a duplicate-free list of names
that contains the point yields the indicated value. -/
lemma sum_map_indicator (names : List String) (a : String) (q : ℚ)
    (hnd : names.Nodup) (ha : a ∈ names) :
    (names.map (fun n => if a == n then q else 0)).sum = q := by
  induction names with
  | nil => simp at ha
  | cons x xs ih =>
      rcases List.mem_cons.mp ha with h | h
      · rw [← h]
        have hz : ((xs.map fun n => if a == n then q else 0)).sum = 0 := by
          apply List.sum_eq_zero
          intro y hy
          simp only [List.mem_map] at hy
          obtain ⟨n, hn, rfl⟩ := hy
          have hne : ¬ (a == n) = true := by
            simp only [beq_iff_eq]
            rintro rfl
            rw [h] at hn
            exact (List.nodup_cons.mp hnd).1 hn
          simp [hne]
        simp only [beq_iff_eq] at hz ⊢
        simp [hz]
      · have hx : ¬ (a == x) = true := by
          simp only [beq_iff_eq]
          rintro rfl
          exact (List.nodup_cons.mp hnd).1 h
        have hih := ih (List.nodup_cons.mp hnd).2 h
        simp only [beq_iff_eq] at hx hih ⊢
        simp [hx, hih]

/-- Partitioning a credit list by touch-point name preserves the total:
summing the per-name contributions over any duplicate-free cover of the
names equals the plain sum of all credits. -/
lemma sum_contributionOf_eq (names : List String) (l : List (String × ℚ))
    (hnd : names.Nodup) (hmem : ∀ pr ∈ l, pr.1 ∈ names) :
    (names.map (contributionOf l)).sum = (l.map Prod.snd).sum := by
  induction l with
  | nil =>
      have h0 : names.map (contributionOf []) = names.map (fun _ => (0 : ℚ)) :=
        List.map_congr_left (fun n _ => contributionOf_nil n)
      rw [h0]
      simp
  | cons pr l ih =>
      obtain ⟨a, q⟩ := pr
      have h1 : names.map (contributionOf ((a, q) :: l))
          = names.map (fun n => (if a == n then q else 0) + contributionOf l n) :=
        List.map_congr_left (fun n _ => contributionOf_cons a q l n)
      rw [h1, List.sum_map_add,
        sum_map_indicator names a q hnd (hmem (a, q) (by simp)),
        ih (fun pr hpr => hmem pr (by simp [hpr]))]
      simp

/-- The sum of the per-touch-point contributions equals the plain sum of
all credit entries. -/
lemma totalContribution_eq_sum (l : List (String × ℚ)) :
    totalContribution l = (l.map Prod.snd).sum := by
  unfold totalContribution touchPointNames
  apply sum_contributionOf_eq
  · exact List.nodup_dedup _
  · intro pr hpr
    exact List.mem_dedup.mpr (List.mem_map_of_mem Prod.fst hpr)

/-- The single-point model selects no touch exactly when no touch
qualifies. -/
lemma selectedTouch_none_iff (isFirstModel : Bool) (wStart wEnd : Int)
    (c : ConversionCase) :
    selectedTouch isFirstModel wStart wEnd c = none
      ↔ (qualifyingTouches wStart wEnd c).isEmpty = true := by
  cases isFirstModel <;>
    simp [selectedTouch, firstTouch_none_iff, lastTouch_none_iff, List.isEmpty_iff]

/-- Plain sum of all single-point credit entries over a list of
user-conversion pairs: one unit per converting pair with at least one
qualifying touch. -/
lemma singlePoint_sum (isFirstModel : Bool) (wStart wEnd : Int)
    (cs : List ConversionCase) :
    ((singlePointAssignments isFirstModel wStart wEnd cs).map Prod.snd).sum
      = (convertedCount wStart wEnd cs : ℚ) := by
  induction cs with
  | nil => simp [singlePointAssignments, convertedCount]
  | cons c cs ih =>
      unfold singlePointAssignments at ih ⊢
      rw [List.flatMap_cons, List.map_append, List.sum_append, ih]
      cases h : (qualifyingTouches wStart wEnd c).isEmpty with
      | false =>
          have hne : selectedTouch isFirstModel wStart wEnd c ≠ none := by
            rw [Ne, selectedTouch_none_iff, h]
            simp
          obtain ⟨m, hm⟩ := Option.ne_none_iff_exists'.mp hne
          simp only [convertedCount, List.filter_cons, h, Bool.not_false, if_pos,
            List.length_cons]
          simp [singlePointAssign, hm]
          ring
      | true =>
          have hnone : selectedTouch isFirstModel wStart wEnd c = none :=
            (selectedTouch_none_iff isFirstModel wStart wEnd c).mpr h
          simp only [convertedCount, List.filter_cons, h, Bool.not_true]
          simp [singlePointAssign, hnone]

/-- C1: for every request that passes validation and resolves a
pipeline (and a sheet id), the service dispatches on the model type:
FIRST_TOUCH or LAST_TOUCH invoke the single-point SQL builder, LINEAR
the linear builder, POSITION the position builder, and any other model
type yields an HTTP 400 response with no SQL builder invoked. -/
theorem C1_dispatch_by_model_type (env : Env) (req : AttributionSQLParameters)
    (p : IPipeline) (s : String)
    (h1 : (env.check req).success = true)
    (h2 : env.getPipelineByProjectId req.projectId = some p)
    (h3 : sheetIdOf env (enrichedQuery env req p) = some s) :
    ((req.modelType = AttributionModelType.FIRST_TOUCH
        ∨ req.modelType = AttributionModelType.LAST_TOUCH) →
      Effect.build BuilderKind.singlePoint (builderParamsOf (enrichedQuery env req p))
        ∈ (createAttributionAnalysisVisual env req).2) ∧
    (req.modelType = AttributionModelType.LINEAR →
      Effect.build BuilderKind.linear (builderParamsOf (enrichedQuery env req p))
        ∈ (createAttributionAnalysisVisual env req).2) ∧
    (req.modelType = AttributionModelType.POSITION →
      Effect.build BuilderKind.position (builderParamsOf (enrichedQuery env req p))
        ∈ (createAttributionAnalysisVisual env req).2) ∧
    ((req.modelType ≠ AttributionModelType.FIRST_TOUCH
        ∧ req.modelType ≠ AttributionModelType.LAST_TOUCH
        ∧ req.modelType ≠ AttributionModelType.LINEAR
        ∧ req.modelType ≠ AttributionModelType.POSITION) →
      (createAttributionAnalysisVisual env req).1
          = Response.status400 "Invalid attribution analysis model type" ∧
      ∀ k ps, Effect.build k ps ∉ (createAttributionAnalysisVisual env req).2) := by
  have hqm : (enrichedQuery env req p).modelType = req.modelType := rfl
  refine ⟨?_, ?_, ?_, ?_⟩
  · intro hm
    have h4 : builderOf (enrichedQuery env req p).modelType
        = some BuilderKind.singlePoint := by
      rw [hqm]
      rcases hm with hm | hm <;> rw [hm] <;> decide
    rw [run_full env req p s BuilderKind.singlePoint h1 h2 h3 h4]
    simp
  · intro hm
    have h4 : builderOf (enrichedQuery env req p).modelType
        = some BuilderKind.linear := by
      rw [hqm, hm]; decide
    rw [run_full env req p s BuilderKind.linear h1 h2 h3 h4]
    simp
  · intro hm
    have h4 : builderOf (enrichedQuery env req p).modelType
        = some BuilderKind.position := by
      rw [hqm, hm]; decide
    rw [run_full env req p s BuilderKind.position h1 h2 h3 h4]
    simp
  · rintro ⟨hm1, hm2, hm3, hm4⟩
    have h4 : builderOf (enrichedQuery env req p).modelType = none := by
      rw [hqm]
      simp [builderOf, hm1, hm2, hm3, hm4]
    rw [run_badModel env req p s h1 h2 h3 h4]
    exact ⟨rfl, by intros; simp⟩

/-- C1 witness: the sample first-touch request reaches the single-point
builder. -/
theorem C1_witness :
    (sampleEnv.check sampleReq).success = true ∧
    Effect.build BuilderKind.singlePoint
        (builderParamsOf (enrichedQuery sampleEnv sampleReq samplePipeline))
      ∈ (createAttributionAnalysisVisual sampleEnv sampleReq).2 :=
  ⟨rfl,
    (C1_dispatch_by_model_type sampleEnv sampleReq samplePipeline "uuid-1"
      rfl (by decide) rfl).1 (Or.inl rfl)⟩

/-- C4 helper: the response on the full path is the empty-embed/PREVIEW
conditional. -/
lemma run_full_fst (env : Env) (req : AttributionSQLParameters) (p : IPipeline)
    (s : String) (k : BuilderKind)
    (h1 : (env.check req).success = true)
    (h2 : env.getPipelineByProjectId req.projectId = some p)
    (h3 : sheetIdOf env (enrichedQuery env req p) = some s)
    (h4 : builderOf (enrichedQuery env req p).modelType = some k) :
    (createAttributionAnalysisVisual env req).1 =
      if (visualResultOf env req p s k).dashboardEmbedUrl == ""
          && (enrichedQuery env req p).action == ExploreRequestAction.PREVIEW then
        Response.status500 "Failed to create resources, please try again later."
      else Response.status201 (visualResultOf env req p s k) := by
  rw [run_full env req p s k h1 h2 h3 h4]
  simp only [visualResultOf]

/-- C4: for every request whose visualization result has an empty
dashboard embed handle, the service returns HTTP 500 exactly when the
action is PREVIEW; a non-PREVIEW action or a non-empty embed handle
yields HTTP 201 with the dashboard artifact as the body. -/
theorem C4_preview_empty_embed (env : Env) (req : AttributionSQLParameters)
    (p : IPipeline) (s : String) (k : BuilderKind)
    (h1 : (env.check req).success = true)
    (h2 : env.getPipelineByProjectId req.projectId = some p)
    (h3 : sheetIdOf env (enrichedQuery env req p) = some s)
    (h4 : builderOf (enrichedQuery env req p).modelType = some k) :
    ((visualResultOf env req p s k).dashboardEmbedUrl = "" →
      ((createAttributionAnalysisVisual env req).1
          = Response.status500 "Failed to create resources, please try again later."
        ↔ req.action = ExploreRequestAction.PREVIEW)) ∧
    ((req.action ≠ ExploreRequestAction.PREVIEW
        ∨ (visualResultOf env req p s k).dashboardEmbedUrl ≠ "") →
      (createAttributionAnalysisVisual env req).1
        = Response.status201 (visualResultOf env req p s k)) := by
  have hact : (enrichedQuery env req p).action = req.action := rfl
  by_cases hemb : (visualResultOf env req p s k).dashboardEmbedUrl = "" <;>
    by_cases hp : req.action = ExploreRequestAction.PREVIEW <;>
    rw [run_full_fst env req p s k h1 h2 h3 h4] <;>
    simp [hemb, hp, hact]

/-- C4 witness: the sample PREVIEW request with an empty embed URL is
answered with HTTP 500. -/
theorem C4_witness :
    (visualResultOf sampleEnvEmptyEmbed sampleReq samplePipeline "uuid-1"
        BuilderKind.singlePoint).dashboardEmbedUrl = "" ∧
    (createAttributionAnalysisVisual sampleEnvEmptyEmbed sampleReq).1
      = Response.status500 "Failed to create resources, please try again later." :=
  ⟨rfl,
    ((C4_preview_empty_embed sampleEnvEmptyEmbed sampleReq samplePipeline "uuid-1"
        BuilderKind.singlePoint rfl (by decide) rfl (by decide)).1 rfl).mpr rfl⟩

/-- C5: a request that fails parameter validation is answered with HTTP
400 carrying the validator's message, and no pipeline lookup, no SQL
builder and no visualization call happen.  The embedded service is a
total function, so no exception can escape. -/
theorem C5_validation_failure (env : Env) (req : AttributionSQLParameters)
    (h : (env.check req).success = false) :
    (createAttributionAnalysisVisual env req).1
        = Response.status400 (env.check req).message ∧
    (∀ pid, Effect.lookupPipeline pid ∉ (createAttributionAnalysisVisual env req).2) ∧
    (∀ k ps, Effect.build k ps ∉ (createAttributionAnalysisVisual env req).2) ∧
    (∀ sh l ct, Effect.visualize sh l ct ∉ (createAttributionAnalysisVisual env req).2) := by
  rw [run_invalid env req h]
  refine ⟨rfl, ?_, ?_, ?_⟩ <;> intros <;> simp

/-- C5 witness: the rejecting validator yields a 400 with its message. -/
theorem C5_witness :
    (sampleEnvBadCheck.check sampleReq).success = false ∧
    (createAttributionAnalysisVisual sampleEnvBadCheck sampleReq).1
      = Response.status400 "bad request" :=
  ⟨rfl, (C5_validation_failure sampleEnvBadCheck sampleReq rfl).1⟩

/-- C6: a validated request whose project id resolves to no pipeline is
answered with HTTP 404, and no SQL builder and no visualization call
happen. -/
theorem C6_pipeline_not_found (env : Env) (req : AttributionSQLParameters)
    (h1 : (env.check req).success = true)
    (h2 : env.getPipelineByProjectId req.projectId = none) :
    (createAttributionAnalysisVisual env req).1
        = Response.status404 "Pipeline not found" ∧
    (∀ k ps, Effect.build k ps ∉ (createAttributionAnalysisVisual env req).2) ∧
    (∀ sh l ct, Effect.visualize sh l ct ∉ (createAttributionAnalysisVisual env req).2) := by
  rw [run_noPipeline env req h1 h2]
  refine ⟨rfl, ?_, ?_⟩ <;> intros <;> simp

/-- C6 witness: the sample request for unknown project `p2` yields
404. -/
theorem C6_witness :
    sampleEnv.getPipelineByProjectId sampleReqNoPipeline.projectId = none ∧
    (createAttributionAnalysisVisual sampleEnv sampleReqNoPipeline).1
      = Response.status404 "Pipeline not found" :=
  ⟨by decide, (C6_pipeline_not_found sampleEnv sampleReqNoPipeline rfl (by decide)).1⟩

/-- C7: derivation of the sheet id used downstream: with no dashboard id
a fresh identifier is generated; with a dashboard id but no sheet id the
service answers HTTP 400 and no SQL builder runs; with both present the
caller-supplied sheet id is reused unchanged. -/
theorem C7_sheet_id_derivation (env : Env) (req : AttributionSQLParameters)
    (p : IPipeline)
    (h1 : (env.check req).success = true)
    (h2 : env.getPipelineByProjectId req.projectId = some p) :
    (req.dashboardId = none →
      sheetIdOf env (enrichedQuery env req p) = some env.uuid ∧
      ∀ sh l ct, Effect.visualize sh l ct ∈ (createAttributionAnalysisVisual env req).2 →
        sh = env.uuid) ∧
    (∀ d, req.dashboardId = some d → d ≠ "" → req.sheetId = none →
      (createAttributionAnalysisVisual env req).1
          = Response.status400 "missing required parameter sheetId" ∧
      ∀ k ps, Effect.build k ps ∉ (createAttributionAnalysisVisual env req).2) ∧
    (∀ d sid, req.dashboardId = some d → d ≠ "" → req.sheetId = some sid → sid ≠ "" →
      sheetIdOf env (enrichedQuery env req p) = some sid ∧
      ∀ sh l ct, Effect.visualize sh l ct ∈ (createAttributionAnalysisVisual env req).2 →
        sh = sid) := by
  have hdash : (enrichedQuery env req p).dashboardId = req.dashboardId := rfl
  have hsheet : (enrichedQuery env req p).sheetId = req.sheetId := rfl
  refine ⟨?_, ?_, ?_⟩
  · intro hd
    have h3 : sheetIdOf env (enrichedQuery env req p) = some env.uuid := by
      simp [sheetIdOf, hdash, hd, jsFalsy]
    refine ⟨h3, ?_⟩
    intro sh l ct hmem
    cases h4 : builderOf (enrichedQuery env req p).modelType with
    | none =>
        rw [run_badModel env req p env.uuid h1 h2 h3 h4] at hmem
        simp at hmem
    | some k =>
        rw [run_full env req p env.uuid k h1 h2 h3 h4] at hmem
        simp at hmem
        exact hmem.1
  · intro d hd hdne hs
    have h3 : sheetIdOf env (enrichedQuery env req p) = none := by
      simp [sheetIdOf, hdash, hsheet, hd, hs, jsFalsy, hdne]
    rw [run_noSheet env req p h1 h2 h3]
    exact ⟨rfl, by intros; simp⟩
  · intro d sid hd hdne hsid hsidne
    have h3 : sheetIdOf env (enrichedQuery env req p) = some sid := by
      simp [sheetIdOf, hdash, hsheet, hd, hsid, jsFalsy, hdne, hsidne]
    refine ⟨h3, ?_⟩
    intro sh l ct hmem
    cases h4 : builderOf (enrichedQuery env req p).modelType with
    | none =>
        rw [run_badModel env req p sid h1 h2 h3 h4] at hmem
        simp at hmem
    | some k =>
        rw [run_full env req p sid k h1 h2 h3 h4] at hmem
        simp at hmem
        exact hmem.1

/-- C7 witness: a fresh uuid sheet id without a dashboard id, and a 400
when a dashboard id comes without a sheet id. -/
theorem C7_witness :
    sampleReq.dashboardId = none ∧
    sheetIdOf sampleEnv (enrichedQuery sampleEnv sampleReq samplePipeline)
      = some sampleEnv.uuid ∧
    (createAttributionAnalysisVisual sampleEnv sampleReqNoSheet).1
      = Response.status400 "missing required parameter sheetId" ∧
    sheetIdOf sampleEnv (enrichedQuery sampleEnv sampleReqWithSheet samplePipeline)
      = some "sheet-7" :=
  ⟨rfl,
    ((C7_sheet_id_derivation sampleEnv sampleReq samplePipeline
        rfl (by decide)).1 rfl).1,
    ((C7_sheet_id_derivation sampleEnv sampleReqNoSheet samplePipeline
        rfl (by decide)).2.1 "dash-9" rfl (by decide) rfl).1,
    ((C7_sheet_id_derivation sampleEnv sampleReqWithSheet samplePipeline
        rfl (by decide)).2.2 "dash-9" "sheet-7" rfl (by decide) rfl (by decide)).1⟩

/-- C8: on every run that reaches a SQL builder the effect trace is
exactly validation, pipeline lookup, timezone resolution, one encoder
application, the builder invocation on the once-encoded parameters, and
the visualization call — so the encoder runs exactly once, after the
timezone is resolved and before any builder. -/
theorem C8_encode_once_ordered (env : Env) (req : AttributionSQLParameters)
    (p : IPipeline) (s : String) (k : BuilderKind)
    (h1 : (env.check req).success = true)
    (h2 : env.getPipelineByProjectId req.projectId = some p)
    (h3 : sheetIdOf env (enrichedQuery env req p) = some s)
    (h4 : builderOf (enrichedQuery env req p).modelType = some k) :
    (createAttributionAnalysisVisual env req).2 =
      [Effect.validate, Effect.lookupPipeline req.projectId,
        Effect.resolveTimezone (env.getTimezoneByAppId p req.appId), Effect.encode,
        Effect.build k (builderParamsOf (enrichedQuery env req p)),
        Effect.visualize s ((enrichedQuery env req p).locale.getD ExploreLocales.EN_US)
          ((enrichedQuery env req p).chartType.getD QuickSightChartType.TABLE)] ∧
    (createAttributionAnalysisVisual env req).2.countP isEncodeEffect = 1 := by
  have h := run_full env req p s k h1 h2 h3 h4
  constructor
  · rw [h]
  · rw [h]
    simp [isEncodeEffect, List.countP_cons]

/-- C8 witness: the sample run applies the encoder exactly once. -/
theorem C8_witness :
    (createAttributionAnalysisVisual sampleEnv sampleReq).2.countP isEncodeEffect = 1 :=
  (C8_encode_once_ordered sampleEnv sampleReq samplePipeline "uuid-1"
    BuilderKind.singlePoint rfl (by decide) rfl (by decide)).2

/-- C9: every builder invocation receives the encoded request with
`schemaName` overridden to the app id and `dbName` to the project id,
and every other field passed through unchanged. -/
theorem C9_builder_params (env : Env) (req : AttributionSQLParameters)
    (p : IPipeline) (s : String) (k : BuilderKind)
    (h1 : (env.check req).success = true)
    (h2 : env.getPipelineByProjectId req.projectId = some p)
    (h3 : sheetIdOf env (enrichedQuery env req p) = some s)
    (h4 : builderOf (enrichedQuery env req p).modelType = some k) :
    ∀ kk ps, Effect.build kk ps ∈ (createAttributionAnalysisVisual env req).2 →
      ps.schemaName = req.appId ∧
      ps.dbName = req.projectId ∧
      ps.projectId = (enrichedQuery env req p).projectId ∧
      ps.appId = (enrichedQuery env req p).appId ∧
      ps.modelType = (enrichedQuery env req p).modelType ∧
      ps.timeScopeType = (enrichedQuery env req p).timeScopeType ∧
      ps.lastN = (enrichedQuery env req p).lastN ∧
      ps.timeUnit = (enrichedQuery env req p).timeUnit ∧
      ps.timeStart = (enrichedQuery env req p).timeStart ∧
      ps.timeEnd = (enrichedQuery env req p).timeEnd ∧
      ps.dashboardId = (enrichedQuery env req p).dashboardId ∧
      ps.sheetId = (enrichedQuery env req p).sheetId ∧
      ps.locale = (enrichedQuery env req p).locale ∧
      ps.chartType = (enrichedQuery env req p).chartType ∧
      ps.viewName = (enrichedQuery env req p).viewName ∧
      ps.action = (enrichedQuery env req p).action ∧
      ps.touchPointEventName = (enrichedQuery env req p).touchPointEventName ∧
      ps.conversionEventName = (enrichedQuery env req p).conversionEventName ∧
      ps.timezone = (enrichedQuery env req p).timezone := by
  intro kk ps hmem
  rw [run_full env req p s k h1 h2 h3 h4] at hmem
  simp at hmem
  obtain ⟨hk, rfl⟩ := hmem
  exact ⟨rfl, rfl, rfl, rfl, rfl, rfl, rfl, rfl, rfl, rfl, rfl, rfl, rfl, rfl, rfl,
    rfl, rfl, rfl, rfl⟩

/-- C9 witness: the sample run's builder parameters carry the app id as
schema name and the project id as database name. -/
theorem C9_witness :
    (builderParamsOf (enrichedQuery sampleEnv sampleReq samplePipeline)).schemaName
        = sampleReq.appId ∧
    (builderParamsOf (enrichedQuery sampleEnv sampleReq samplePipeline)).dbName
        = sampleReq.projectId := by
  have h := C9_builder_params sampleEnv sampleReq samplePipeline "uuid-1"
    BuilderKind.singlePoint rfl (by decide) rfl (by decide)
    BuilderKind.singlePoint
    (builderParamsOf (enrichedQuery sampleEnv sampleReq samplePipeline)) (by decide)
  exact ⟨h.1, h.2.1⟩

/-- C10: the visualization call uses the request's locale, or EN_US when
absent, and the request's chart type, or TABLE when absent. -/
theorem C10_locale_chart_defaults (env : Env) (req : AttributionSQLParameters)
    (p : IPipeline) (s : String) (k : BuilderKind)
    (h1 : (env.check req).success = true)
    (h2 : env.getPipelineByProjectId req.projectId = some p)
    (h3 : sheetIdOf env (enrichedQuery env req p) = some s)
    (h4 : builderOf (enrichedQuery env req p).modelType = some k) :
    ∀ sh l ct, Effect.visualize sh l ct ∈ (createAttributionAnalysisVisual env req).2 →
      (req.locale = none → l = ExploreLocales.EN_US) ∧
      (∀ x, req.locale = some x → l = x) ∧
      (req.chartType = none → ct = QuickSightChartType.TABLE) ∧
      (∀ x, req.chartType = some x → ct = x) := by
  intro sh l ct hmem
  rw [run_full env req p s k h1 h2 h3 h4] at hmem
  simp at hmem
  obtain ⟨hsh, hl, hct⟩ := hmem
  have hloc : (enrichedQuery env req p).locale = req.locale := rfl
  have hch : (enrichedQuery env req p).chartType = req.chartType := rfl
  refine ⟨?_, ?_, ?_, ?_⟩
  · intro hn; rw [hl, hloc, hn]; rfl
  · intro x hx; rw [hl, hloc, hx]; rfl
  · intro hn; rw [hct, hch, hn]; rfl
  · intro x hx; rw [hct, hch, hx]; rfl

/-- C10 witness: the sample request omits locale and chart type and the
visualization call receives the defaults. -/
theorem C10_witness :
    Effect.visualize "uuid-1" "en-US" "table"
      ∈ (createAttributionAnalysisVisual sampleEnv sampleReq).2 ∧
    "en-US" = ExploreLocales.EN_US ∧ "table" = QuickSightChartType.TABLE := by
  have h := C10_locale_chart_defaults sampleEnv sampleReq samplePipeline "uuid-1"
    BuilderKind.singlePoint rfl (by decide) rfl (by decide)
    "uuid-1" "en-US" "table" (by decide)
  exact ⟨by decide, h.1 rfl, h.2.2.1 rfl⟩

/-- C2: for every user-conversion pair the single-point model selects at
most one touch — a qualifying touch (in window, strictly before the
conversion) that is the earliest for first-touch and the latest for
last-touch, with ties broken deterministically — and credits it the
whole conversion, so the sum of per-touch-point contributions equals
the number of conversions with at least one qualifying touch. -/
theorem C2_single_point_model (isFirstModel : Bool) (wStart wEnd : Int)
    (cs : List ConversionCase) :
    (∀ c ∈ cs, ∀ m, selectedTouch isFirstModel wStart wEnd c = some m →
      singlePointAssign isFirstModel wStart wEnd c = [(m.name, 1)] ∧
      m ∈ qualifyingTouches wStart wEnd c ∧
      (wStart ≤ m.ts ∧ m.ts ≤ wEnd ∧ m.ts < c.convTs) ∧
      (isFirstModel = true →
        ∀ u ∈ qualifyingTouches wStart wEnd c, touchLE m u = true) ∧
      (isFirstModel = false →
        ∀ u ∈ qualifyingTouches wStart wEnd c, touchLE u m = true)) ∧
    totalContribution (singlePointAssignments isFirstModel wStart wEnd cs)
      = (convertedCount wStart wEnd cs : ℚ) := by
  constructor
  · intro c hc m hm
    have hassign : singlePointAssign isFirstModel wStart wEnd c = [(m.name, 1)] := by
      simp [singlePointAssign, hm]
    have hmm : m ∈ qualifyingTouches wStart wEnd c ∧
        (isFirstModel = true →
          ∀ u ∈ qualifyingTouches wStart wEnd c, touchLE m u = true) ∧
        (isFirstModel = false →
          ∀ u ∈ qualifyingTouches wStart wEnd c, touchLE u m = true) := by
      cases isFirstModel with
      | true =>
          have hf : firstTouch (qualifyingTouches wStart wEnd c) = some m := by
            simpa [selectedTouch] using hm
          obtain ⟨h5, h6⟩ := firstTouch_spec _ m hf
          exact ⟨h5, fun _ => h6, fun hfalse => absurd hfalse (by decide)⟩
      | false =>
          have hf : lastTouch (qualifyingTouches wStart wEnd c) = some m := by
            simpa [selectedTouch] using hm
          obtain ⟨h5, h6⟩ := lastTouch_spec _ m hf
          exact ⟨h5, fun htrue => absurd htrue (by decide), fun _ => h6⟩
    have hwin : wStart ≤ m.ts ∧ m.ts ≤ wEnd ∧ m.ts < c.convTs := by
      have hfil := (List.mem_filter.mp hmm.1).2
      have hfil2 := by
        simpa [inWindowBeforeConv, Bool.and_eq_true, decide_eq_true_eq] using hfil
      exact ⟨hfil2.1.1, hfil2.1.2, hfil2.2⟩
    exact ⟨hassign, hmm.1, hwin, hmm.2.1, hmm.2.2⟩
  · rw [totalContribution_eq_sum]
    exact singlePoint_sum isFirstModel wStart wEnd cs

/-- C2 witness: on the sample pairs the first-touch model picks the
earliest touch and the total contribution equals the converted count. -/
theorem C2_witness :
    sampleCaseA ∈ sampleCases ∧
    selectedTouch true 0 100 sampleCaseA = some sampleTouchA ∧
    singlePointAssign true 0 100 sampleCaseA = [(sampleTouchA.name, 1)] ∧
    totalContribution (singlePointAssignments true 0 100 sampleCases)
      = (convertedCount 0 100 sampleCases : ℚ) := by
  have h := C2_single_point_model true 0 100 sampleCases
  exact ⟨by decide, by decide,
    (h.1 sampleCaseA (by decide) sampleTouchA (by decide)).1, h.2⟩

/-- C3: the position-based model orders the qualifying touches
deterministically and assigns credit per user-conversion pair: a single
touch receives 1, two touches receive one half each, and with three or
more the first and the last receive two fifths each while the middle
touches split the remaining fifth equally — and those credits sum to
one. -/
theorem C3_position_model (wStart wEnd : Int) (c : ConversionCase) :
    List.Sorted touchOrder (orderedTouches wStart wEnd c) ∧
    (orderedTouches wStart wEnd c).Perm (qualifyingTouches wStart wEnd c) ∧
    (∀ t, orderedTouches wStart wEnd c = [t] →
      positionAssign wStart wEnd c = [(t.name, 1)]) ∧
    (∀ t u, orderedTouches wStart wEnd c = [t, u] →
      positionAssign wStart wEnd c = [(t.name, (1 : ℚ) / 2), (u.name, (1 : ℚ) / 2)]) ∧
    (∀ t mids u, orderedTouches wStart wEnd c = t :: mids ++ [u] → mids ≠ [] →
      positionAssign wStart wEnd c =
        (t.name, (2 : ℚ) / 5) ::
          (mids.map fun m => (m.name, ((1 : ℚ) / 5) / (mids.length : ℚ))) ++
          [(u.name, (2 : ℚ) / 5)] ∧
      ((positionAssign wStart wEnd c).map Prod.snd).sum = 1) := by
  refine ⟨List.sorted_insertionSort touchOrder _,
    List.perm_insertionSort touchOrder _, ?_, ?_, ?_⟩
  · intro t h
    unfold positionAssign
    rw [h]
  · intro t u h
    unfold positionAssign
    rw [h]
  · intro t mids u h hne
    obtain ⟨m1, mids', rfl⟩ : ∃ m1 mids', mids = m1 :: mids' := by
      cases mids with
      | nil => exact absurd rfl hne
      | cons a b => exact ⟨a, b, rfl⟩
    obtain ⟨v, rest, hvr⟩ : ∃ v rest, mids' ++ [u] = v :: rest := by
      cases mids' with
      | nil => exact ⟨u, [], rfl⟩
      | cons a b => exact ⟨a, b ++ [u], rfl⟩
    have hord : orderedTouches wStart wEnd c = t :: m1 :: v :: rest := by
      rw [h]
      simp [hvr]
    have hlist : m1 :: v :: rest = (m1 :: mids') ++ [u] := by
      simp [hvr]
    have hred : positionAssign wStart wEnd c =
        (t.name, (2 : ℚ) / 5) ::
          (((m1 :: v :: rest).dropLast).map
            (fun m => (m.name, ((1 : ℚ) / 5) / (((m1 :: v :: rest).dropLast).length : ℚ)))) ++
          [(((m1 :: v :: rest).getLastD t).name, (2 : ℚ) / 5)] := by
      unfold positionAssign
      rw [hord]
    have hdrop : (m1 :: v :: rest).dropLast = m1 :: mids' := by
      rw [hlist]
      exact List.dropLast_concat
    have hlastd : (m1 :: v :: rest).getLastD t = u := by
      rw [hlist]
      exact List.getLastD_concat t u (m1 :: mids')
    have hassign : positionAssign wStart wEnd c =
        (t.name, (2 : ℚ) / 5) ::
          ((m1 :: mids').map
            (fun m => (m.name, ((1 : ℚ) / 5) / (((m1 :: mids').length : ℚ))))) ++
          [(u.name, (2 : ℚ) / 5)] := by
      rw [hred, hdrop, hlastd]
    refine ⟨hassign, ?_⟩
    rw [hassign]
    have hmid : (((m1 :: mids').map
          (fun m => (m.name, ((1 : ℚ) / 5) / (((m1 :: mids').length : ℚ))))).map Prod.snd)
        = List.replicate (m1 :: mids').length
            (((1 : ℚ) / 5) / (((m1 :: mids').length : ℚ))) := by
      rw [List.map_map]
      exact List.map_const' _ _
    rw [List.map_append, List.map_cons, List.sum_append, List.sum_cons, hmid,
      List.sum_replicate, nsmul_eq_mul]
    have hn : (((m1 :: mids').length : ℚ)) ≠ 0 := by
      have h0 : (0 : ℚ) ≤ (mids'.length : ℚ) := Nat.cast_nonneg _
      simp only [List.length_cons, Nat.cast_add, Nat.cast_one]
      intro hcontra
      linarith
    field_simp
    ring

/-- C3 witness: four qualifying sample touches receive the 2/5, 1/10,
1/10, 2/5 split and the credits sum to one. -/
theorem C3_witness :
    orderedTouches 0 100 sampleCaseC
      = [sampleTouchA, sampleTouchB, sampleTouchC, sampleTouchD] ∧
    positionAssign 0 100 sampleCaseC =
      (sampleTouchA.name, (2 : ℚ) / 5) ::
        (([sampleTouchB, sampleTouchC] : List TouchEvent).map
          (fun m => (m.name,
            ((1 : ℚ) / 5) / ((([sampleTouchB, sampleTouchC] : List TouchEvent).length : ℚ))))) ++
        [(sampleTouchD.name, (2 : ℚ) / 5)] ∧
    ((positionAssign 0 100 sampleCaseC).map Prod.snd).sum = 1 := by
  have h := (C3_position_model 0 100 sampleCaseC).2.2.2.2 sampleTouchA
    [sampleTouchB, sampleTouchC] sampleTouchD (by decide) (by decide)
  exact ⟨by decide, h.1, h.2⟩
